import Mathlib

/-!
Verification development for the sales-order management backend
(Controller/Logic.js). The JavaScript handlers are shallowly embedded as
pure Lean functions: request payloads become explicit records (with
`Option (Option _)` distinguishing an absent key from a present-but-null
value, mirroring `hasOwnProperty` versus `null`/`undefined` checks),
wall-clock reads (`new Date()`) become an explicit `now : Time` parameter,
JavaScript numbers become `Option ℚ` where `none` models `NaN`, and the
document store becomes explicit lists / the fetched record.
-/

namespace SalesOrder

/-- User / document identifiers (Mongo ObjectIds rendered as strings). -/
abbrev Id := String

/-- Abstract timestamps standing for JavaScript `Date` values. -/
abbrev Time := Nat

/-- Result of `Number(x)` on a raw JavaScript value together with its
truthiness: `num = none` models `NaN`.  The controller only ever observes
these two aspects of the loosely typed numeric fields (`qty`, `unitPrice`,
`freightcs`, `installation`, `paymentCollected`). -/
structure RawNum where
  truthy : Bool
  num : Option ℚ
deriving DecidableEq

/-- A raw JavaScript number `q` seen as a `RawNum` (`0` is falsy; a finite
number is never `NaN`). -/
def RawNum.ofRat (q : ℚ) : RawNum := ⟨decide (q ≠ 0), some q⟩

/-- Model of `Number(x || 0)`: a falsy raw value is replaced by `0` before
conversion (Logic.js lines 399-400, 1536-1537). -/
def numOr0 (r : RawNum) : Option ℚ := if r.truthy then r.num else some 0

/-- NaN-propagating addition of JavaScript numbers. -/
def jadd : Option ℚ → Option ℚ → Option ℚ
  | some a, some b => some (a + b)
  | _, _ => none

/-- NaN-propagating subtraction of JavaScript numbers. -/
def jsub : Option ℚ → Option ℚ → Option ℚ
  | some a, some b => some (a - b)
  | _, _ => none

/-- The raw `gst` field of a product: either the literal string
`"including"` or any other raw value, abstracted to its truthiness and its
`Number(...)` conversion (`none` = `NaN`). -/
inductive GstIn
  | including
  | other (truthy : Bool) (num : Option ℚ)
deriving DecidableEq

/-- Truthiness of the raw `gst` value (`"including"` is a non-empty string,
hence truthy). -/
def gstTruthy : GstIn → Bool
  | .including => true
  | .other t _ => t

/-- The `gstRate` used in the total computation:
`product.gst === "including" ? 0 : Number(product.gst) || 0`
(Logic.js lines 395-396). -/
def gstRate : GstIn → ℚ
  | .including => 0
  | .other _ n => n.getD 0

/-- A raw `modelNos` / `serialNos` payload value: absent, a string, or an
array of strings.  In JavaScript an array is always truthy, a string is
truthy iff non-empty. -/
inductive StrListIn
  | absent
  | strv (s : String)
  | arr (l : List String)
deriving DecidableEq

/-- JavaScript truthiness of a raw `modelNos` / `serialNos` value. -/
def strListTruthy : StrListIn → Bool
  | .absent => false
  | .strv s => !(s == "")
  | .arr _ => true

/-- A product line item as it arrives in a create payload
(`req.body.products[i]`). -/
structure ProductIn where
  productType : String := ""
  qty : RawNum := ⟨false, none⟩
  unitPrice : RawNum := ⟨false, none⟩
  gst : GstIn := .other false none
  warranty : String := ""
  modelNos : StrListIn := .absent
  serialNos : StrListIn := .absent
  brand : String := ""
deriving DecidableEq

/-- A product line item as persisted inside an order document, after the
normalisation performed by `createOrder` (Logic.js lines 372-387). -/
structure ProductRec where
  productType : String := ""
  qty : RawNum := ⟨false, none⟩
  unitPrice : RawNum := ⟨false, none⟩
  gst : GstIn := .other false none
  warranty : String := ""
  modelNos : List String := []
  serialNos : List String := []
  brand : String := ""
deriving DecidableEq

/-- An order document of the Orders collection, restricted to the fields
the verified handlers read or write. -/
structure Order where
  soDate : Time := 0
  createdBy : Id := ""
  assignedTo : Option Id := none
  customername : String := ""
  customerEmail : String := ""
  orderType : String := "B2C"
  dispatchFrom : Option String := none
  products : List ProductRec := []
  total : Option ℚ := some 0
  paymentDue : Option ℚ := some 0
  sostatus : String := "Pending for Approval"
  fulfillingStatus : String := ""
  completionStatus : String := "In Progress"
  dispatchStatus : String := "Not Dispatched"
  installationStatus : String := "Pending"
  approvalTimestamp : Option Time := none
  fulfillmentDate : Option Time := none
  dispatchDate : Option Time := none
  receiptDate : Option Time := none
  remarks : String := ""
  gemOrderNumber : String := ""
  paymentTerms : String := ""
deriving DecidableEq

instance : Inhabited Order := ⟨{}⟩

/-- The authenticated request user (`req.user`). -/
structure ReqUser where
  id : Id
  role : String
deriving DecidableEq

/-- Outcome of a request handler, abstracting the HTTP status codes used by
the controller (200/201 → `ok`, 400 → `badRequest`, 401/403 →
`unauthorized`, 404 → `notFound`). -/
inductive Res (α : Type)
  | ok (a : α)
  | badRequest (msg : String)
  | unauthorized (msg : String)
  | notFound (msg : String)
deriving DecidableEq

/-- Whether a handler outcome is a success. -/
def Res.isOk {α : Type} : Res α → Bool
  | .ok _ => true
  | _ => false

/-- A date-typed payload value as the edit loop observes it:
`valid t` models a truthy value for which `new Date(val)` parses, `invalid`
models a falsy or unparseable value (which the loop silently ignores,
Logic.js lines 697-706). -/
inductive DateIn
  | valid (t : Time)
  | invalid
deriving DecidableEq

/-- A partial edit payload (`req.body` of `editEntry`), restricted to the
allow-listed fields read or written by the verified transition rules.
For each field, `none` models an absent key, `some none` models a key
present with value `null`/`undefined` (skipped by the loop but still seen
by `hasOwnProperty`), and `some (some v)` a present value. -/
structure EditPayload where
  dispatchFrom : Option (Option String) := none
  sostatus : Option (Option String) := none
  fulfillingStatus : Option (Option String) := none
  completionStatus : Option (Option String) := none
  dispatchStatus : Option (Option String) := none
  remarks : Option (Option String) := none
  dispatchDate : Option (Option DateIn) := none
  receiptDate : Option (Option DateIn) := none
  fulfillmentDate : Option (Option DateIn) := none
deriving DecidableEq

/-- Value of a non-date payload field after the allow-list loop: present
and non-null values are taken, absent or null values are skipped
(Logic.js lines 657-660, 708). -/
def presentVal {α : Type} : Option (Option α) → Option α
  | some (some v) => some v
  | _ => none

/-- Value of a date payload field after the allow-list loop: only present,
truthy, parseable dates are taken (Logic.js lines 697-706). -/
def presentDate : Option (Option DateIn) → Option Time
  | some (some (.valid t)) => some t
  | _ => none

/-- The `updateFields` object accumulated by `editEntry` before the
`$set` update. -/
structure UpdateFields where
  dispatchFrom : Option String := none
  sostatus : Option String := none
  fulfillingStatus : Option String := none
  completionStatus : Option String := none
  dispatchStatus : Option String := none
  remarks : Option String := none
  dispatchDate : Option Time := none
  receiptDate : Option Time := none
  fulfillmentDate : Option Time := none
  approvalTimestamp : Option Time := none
deriving DecidableEq

/-- The allow-list copy loop of `editEntry` (Logic.js lines 650-711):
present non-null values are copied into `updateFields`; date fields only
when they parse.  `approvalTimestamp` is not in the allow list and hence
never copied from the payload. -/
def loopFields (p : EditPayload) : UpdateFields :=
  { dispatchFrom := presentVal p.dispatchFrom
    sostatus := presentVal p.sostatus
    fulfillingStatus := presentVal p.fulfillingStatus
    completionStatus := presentVal p.completionStatus
    dispatchStatus := presentVal p.dispatchStatus
    remarks := presentVal p.remarks
    dispatchDate := presentDate p.dispatchDate
    receiptDate := presentDate p.receiptDate
    fulfillmentDate := presentDate p.fulfillmentDate
    approvalTimestamp := none }

/-- Approval rule (Logic.js lines 714-719): if the payload sets
`sostatus` to "Approved" and the stored value is not "Approved", stamp
`approvalTimestamp`. -/
def applyApprovalRule (ex : Order) (now : Time) (u : UpdateFields) : UpdateFields :=
  if u.sostatus = some "Approved" ∧ ex.sostatus ≠ "Approved" then
    { u with approvalTimestamp := some now }
  else u

/-- Condition `updateFields.dispatchFrom && updateFields.dispatchFrom !==
existingOrder.dispatchFrom` guarding the Morinda rule (Logic.js lines
731-734). -/
def dfChanging (ex : Order) (u : UpdateFields) : Bool :=
  match u.dispatchFrom with
  | none => false
  | some v => if v = "" then false else if ex.dispatchFrom = some v then false else true

/-- Fulfillment / Morinda rule (Logic.js lines 730-756): when
`dispatchFrom` is changing, "Morinda" forces Pending / In Progress and any
other value forces Fulfilled / Complete with a fresh `fulfillmentDate`;
otherwise a manually supplied `fulfillingStatus` of "Fulfilled" forces
Complete and stamps `fulfillmentDate` only when the order has none. -/
def applyMorindaRule (ex : Order) (p : EditPayload) (now : Time) (u : UpdateFields) :
    UpdateFields :=
  if dfChanging ex u then
    if u.dispatchFrom = some "Morinda" then
      { u with fulfillingStatus := some "Pending", completionStatus := some "In Progress" }
    else
      { u with fulfillingStatus := some "Fulfilled", completionStatus := some "Complete",
               fulfillmentDate := some now }
  else if p.fulfillingStatus.isSome then
    if u.fulfillingStatus = some "Fulfilled" then
      { u with completionStatus := some "Complete",
               fulfillmentDate := if ex.fulfillmentDate = none then some now
                                  else u.fulfillmentDate }
    else u
  else u

/-- Dispatch-date rule (Logic.js lines 759-767): auto-stamp `dispatchDate`
when the payload sets `dispatchStatus` to Dispatched/Delivered and no
dispatch date is supplied or stored. -/
def applyDispatchDateRule (ex : Order) (p : EditPayload) (now : Time) (u : UpdateFields) :
    UpdateFields :=
  if p.dispatchStatus.isSome
      ∧ (u.dispatchStatus = some "Dispatched" ∨ u.dispatchStatus = some "Delivered")
      ∧ p.dispatchDate = none ∧ ex.dispatchDate = none then
    { u with dispatchDate := some now }
  else u

/-- Receipt-date rule (Logic.js lines 770-775): stamp `receiptDate` when
the payload sets `dispatchStatus` to "Delivered" and no receipt date is
stored. -/
def applyReceiptDateRule (ex : Order) (now : Time) (u : UpdateFields) : UpdateFields :=
  if u.dispatchStatus = some "Delivered" ∧ ex.receiptDate = none then
    { u with receiptDate := some now }
  else u

/-- Full computation of `updateFields` for an edit request. -/
def buildUpdateFields (ex : Order) (p : EditPayload) (now : Time) : UpdateFields :=
  applyReceiptDateRule ex now
    (applyDispatchDateRule ex p now
      (applyMorindaRule ex p now
        (applyApprovalRule ex now (loopFields p))))

/-- A `$set`-updated plain field: the new value when present, otherwise
the stored one. -/
def setOr {α : Type} (new : Option α) (old : α) : α := new.getD old

/-- A `$set`-updated optional field. -/
def setOptOr {α : Type} : Option α → Option α → Option α
  | some v, _ => some v
  | none, old => old

/-- The atomic `findByIdAndUpdate(orderId, { $set: updateFields })`
applied to the fetched document. -/
def applyUpdate (ex : Order) (u : UpdateFields) : Order :=
  { ex with
    dispatchFrom := setOptOr u.dispatchFrom ex.dispatchFrom
    sostatus := setOr u.sostatus ex.sostatus
    fulfillingStatus := setOr u.fulfillingStatus ex.fulfillingStatus
    completionStatus := setOr u.completionStatus ex.completionStatus
    dispatchStatus := setOr u.dispatchStatus ex.dispatchStatus
    remarks := setOr u.remarks ex.remarks
    dispatchDate := setOptOr u.dispatchDate ex.dispatchDate
    receiptDate := setOptOr u.receiptDate ex.receiptDate
    fulfillmentDate := setOptOr u.fulfillmentDate ex.fulfillmentDate
    approvalTimestamp := setOptOr u.approvalTimestamp ex.approvalTimestamp }

/-- The `editEntry` handler (Logic.js lines 517-1182), as a function of
the acting user, the fetched document (`none` when `findById` misses), the
payload, and the operation time.  Note that the handler performs no role
or ownership check: the actor is never consulted. -/
def editEntry (actor : ReqUser) (existing : Option Order) (p : EditPayload)
    (now : Time) : Res Order :=
  match existing with
  | none => .notFound "Order not found"
  | some ex => .ok (applyUpdate ex (buildUpdateFields ex p now))

/-- The full enumerated set of dispatch locations accepted by `createOrder`
and `bulkUploadOrders` (Logic.js lines 318-327, 1453-1462). -/
def validDispatchLocations : List String :=
  ["Patna", "Bareilly", "Ranchi", "Morinda", "Lucknow", "Delhi", "Jaipur", "Rajasthan"]

/-- The seven standard (non-Morinda) dispatch locations used by the
dashboard production count and the production queue (Logic.js lines
164-172, 2012-2020). -/
def dispatchFromOptions : List String :=
  ["Patna", "Bareilly", "Ranchi", "Lucknow", "Delhi", "Jaipur", "Rajasthan"]

/-- First `createOrder` product check (Logic.js lines 337-342): a required
field is falsy. -/
def prodMissing (p : ProductIn) : Bool :=
  (p.productType == "") || !p.qty.truthy || !(gstTruthy p.gst) || (p.warranty == "")

/-- Whether `Number(x)` is `NaN` or non-positive. -/
def nanOrNonpos : Option ℚ → Bool
  | none => true
  | some q => decide (q ≤ 0)

/-- Whether `Number(x)` is `NaN` or negative. -/
def nanOrNeg : Option ℚ → Bool
  | none => true
  | some q => decide (q < 0)

/-- The condition `product.gst !== "including" && isNaN(Number(product.gst))`. -/
def gstNaN : GstIn → Bool
  | .including => false
  | .other _ n => n.isNone

/-- Second `createOrder` product check (Logic.js lines 349-355): qty must
be a positive number, unitPrice a non-negative number, gst "including" or
numeric. -/
def prodBadNums (p : ProductIn) : Bool :=
  nanOrNonpos p.qty.num || nanOrNeg p.unitPrice.num || gstNaN p.gst

/-- Third `createOrder` product check (Logic.js lines 363-366): IFPD
products need `modelNos` and `brand`. -/
def prodIFPDBad (p : ProductIn) : Bool :=
  (p.productType == "IFPD") && (!(strListTruthy p.modelNos) || (p.brand == ""))

/-- Per-product validation of `createOrder`, returning the first error
message produced, in the order the checks appear in the source. -/
def productError (p : ProductIn) : Option String :=
  if prodMissing p then some "Invalid product data"
  else if prodBadNums p then some "Invalid product data"
  else if prodIFPDBad p then some "Model Numbers and Brand are required for IFPD products"
  else none

/-- Validation of a whole create product list: the loop returns on the
first invalid product. -/
def firstProductError : List ProductIn → Option String
  | [] => none
  | p :: rest =>
    match productError p with
    | some e => some e
    | none => firstProductError rest

/-- Warranty default precedence of `createOrder` (Logic.js lines 372-378). -/
def defaultWarranty (orderType : String) (p : ProductIn) : String :=
  if orderType = "B2G" then "As Per Tender"
  else if p.productType = "IFPD" ∧ p.brand = "Promark" then "3 Years"
  else "1 Year"

/-- Normalisation `createOrder` applies to each validated product
(Logic.js lines 372-387): warranty defaulted, `serialNos` forced to a
list, `modelNos` comma-split when given as a string, brand defaulted. -/
def normalizeCreateProduct (orderType : String) (p : ProductIn) : ProductRec :=
  { productType := p.productType
    qty := p.qty
    unitPrice := p.unitPrice
    gst := p.gst
    warranty := if p.warranty = "" then defaultWarranty orderType p else p.warranty
    serialNos := match p.serialNos with | .arr l => l | _ => []
    modelNos :=
      match p.modelNos with
      | .arr l => l
      | .strv s => if s = "" then [] else (s.splitOn ",").map (fun m => m.trim)
      | .absent => []
    brand := p.brand }

/-- One line of the `createOrder` total (Logic.js lines 392-397):
`(Number(qty) || 0) * (Number(unitPrice) || 0) * (1 + gstRate / 100)`. -/
def lineTotal (p : ProductIn) : ℚ :=
  (p.qty.num.getD 0) * (p.unitPrice.num.getD 0) * (1 + gstRate p.gst / 100)

/-- The products part of the `createOrder` total (the `reduce` of Logic.js
lines 392-398). -/
def sumLines (ps : List ProductIn) : ℚ :=
  ps.foldl (fun s p => s + lineTotal p) 0

/-- The guard `x !== undefined && !isNaN(x)` deciding whether a caller
supplied an explicit numeric override for `total` / `paymentDue`
(Logic.js lines 436-437, 440-441). -/
def suppliedNumeric : Option (Option ℚ) → Bool
  | some (some _) => true
  | _ => false

/-- Whether a create product list contains an item whose numeric quantity
is non-positive or whose numeric unit price is negative. -/
def hasBadProduct (ps : List ProductIn) : Bool :=
  ps.any (fun p =>
    (match p.qty.num with | some q => decide (q ≤ 0) | none => false) ||
    (match p.unitPrice.num with | some q => decide (q < 0) | none => false))

/-- A `createOrder` request body.  String fields model absence as `""`
(the two are observationally equal for the handler, which only tests
truthiness and compares against non-empty literals); `total?` and
`paymentDue?` distinguish absent (`none`), supplied-but-`NaN`
(`some none`) and numeric (`some (some q)`). -/
structure CreatePayload where
  products : List ProductIn := []
  orderType : String := ""
  gemOrderNumber : String := ""
  demoDate : String := ""
  paymentTerms : String := ""
  dispatchFrom : String := ""
  fulfillingStatus : String := ""
  customername : String := ""
  customerEmail : String := ""
  total? : Option (Option ℚ) := none
  paymentDue? : Option (Option ℚ) := none
  paymentCollected : RawNum := ⟨false, none⟩
  freightcs : RawNum := ⟨false, none⟩
  installation : RawNum := ⟨false, none⟩
deriving DecidableEq

/-- The `createOrder` handler (Logic.js lines 232-514): conditional
required-field checks, dispatch-location check, per-product validation,
then derivation of `total`, `paymentDue` and `fulfillingStatus` and
persistence of the new document. -/
def createOrder (uid : Id) (p : CreatePayload) (now : Time) : Res Order :=
  if p.orderType = "B2G" ∧ p.gemOrderNumber = "" then
    .badRequest "Missing GEM Order Number"
  else if p.orderType = "Demo" ∧ p.demoDate = "" then
    .badRequest "Missing Demo Date"
  else if p.paymentTerms = "" ∧ p.orderType ≠ "Demo" then
    .badRequest "Payment Terms is required for non-Demo orders"
  else if p.dispatchFrom ≠ "" ∧ p.dispatchFrom ∉ validDispatchLocations then
    .badRequest "Invalid dispatchFrom value"
  else
    match firstProductError p.products with
    | some e => .badRequest e
    | none =>
      let calculatedTotal :=
        jadd (jadd (some (sumLines p.products)) (numOr0 p.freightcs)) (numOr0 p.installation)
      let calculatedPaymentDue := jsub calculatedTotal (numOr0 p.paymentCollected)
      let calculatedFulfillingStatus :=
        if p.orderType = "Demo" ∨ p.dispatchFrom ≠ "Morinda" then "Fulfilled"
        else "Not Fulfilled"
      .ok
        { soDate := now
          createdBy := uid
          assignedTo := none
          customername := p.customername
          customerEmail := p.customerEmail
          orderType := if p.orderType = "" then "B2C" else p.orderType
          dispatchFrom := if p.dispatchFrom = "" then none else some p.dispatchFrom
          products := p.products.map (normalizeCreateProduct p.orderType)
          total :=
            match p.total? with
            | some (some t) => some t
            | _ => calculatedTotal
          paymentDue :=
            match p.paymentDue? with
            | some (some d) => some d
            | _ => calculatedPaymentDue
          fulfillingStatus :=
            if p.fulfillingStatus = "" then calculatedFulfillingStatus
            else p.fulfillingStatus
          gemOrderNumber := p.gemOrderNumber
          paymentTerms := p.paymentTerms }

/-- A user document of the Users collection as consulted by the
visibility queries. -/
structure UserRec where
  id : Id
  role : String := "Sales"
  assignedToLeader : Option Id := none
deriving DecidableEq

/-- The single-level team lookup
`User.find({ assignedToLeader: userId }).select("_id")`
(Logic.js lines 133-136, 202-205). -/
def teamMemberIds (users : List UserRec) (leaderId : Id) : List Id :=
  (users.filter (fun u => decide (u.assignedToLeader = some leaderId))).map (fun u => u.id)

/-- The id list `[userId, ...teamMemberIds]` used by non-admin queries. -/
def scopeIds (actor : ReqUser) (users : List UserRec) : List Id :=
  actor.id :: teamMemberIds users actor.id

/-- The `$or: [{createdBy: {$in: allUserIds}}, {assignedTo: {$in:
allUserIds}}]` predicate of the non-admin order queries. -/
def orderMatchesScope (actor : ReqUser) (users : List UserRec) (o : Order) : Bool :=
  decide (o.createdBy ∈ scopeIds actor users) ||
  (match o.assignedTo with
   | some a => decide (a ∈ scopeIds actor users)
   | none => false)

/-- The query predicate of `getAllOrders` (Logic.js lines 190-230):
unrestricted for Admin/SuperAdmin, creator/assignee scope (actor plus
direct team) otherwise. -/
def visQuery (actor : ReqUser) (users : List UserRec) (o : Order) : Bool :=
  if actor.role = "Admin" ∨ actor.role = "SuperAdmin" then true
  else orderMatchesScope actor users o

/-- The result set of `getAllOrders` over a given Orders collection. -/
def getAllOrders (actor : ReqUser) (users : List UserRec) (orders : List Order) :
    List Order :=
  orders.filter (visQuery actor users)

/-- The `baseQuery` of `getDashboardCounts` (Logic.js lines 126-145):
cancelled orders are excluded for every role, and non-admin actors are
additionally restricted to the creator/assignee scope. -/
def dashboardBaseQuery (actor : ReqUser) (users : List UserRec) (o : Order) : Bool :=
  if actor.role = "Admin" ∨ actor.role = "SuperAdmin" then
    !(o.dispatchStatus == "Order Cancelled")
  else
    !(o.dispatchStatus == "Order Cancelled") && orderMatchesScope actor users o

/-- The `all` dashboard count (`Order.countDocuments(baseQuery)`). -/
def dashboardAllCount (actor : ReqUser) (users : List UserRec) (orders : List Order) :
    Nat :=
  (orders.filter (dashboardBaseQuery actor users)).length

/-- Modelled from the spec wording of claim C3, for comparison with the
code-derived predicate: a direct team member is a user whose
`assignedToLeader` equals the actor's id (one level only). -/
def specDirectTeamMember (users : List UserRec) (leaderId uid : Id) : Prop :=
  ∃ u, u ∈ users ∧ u.assignedToLeader = some leaderId ∧ u.id = uid

/-- Modelled from the spec wording of claim C3: an order is in scope when
its creator or assignee is the actor or one of the actor's direct team
members. -/
def specInVisibilityScope (actor : ReqUser) (users : List UserRec) (o : Order) : Prop :=
  (o.createdBy = actor.id ∨ specDirectTeamMember users actor.id o.createdBy) ∨
  (∃ a, o.assignedTo = some a ∧ (a = actor.id ∨ specDirectTeamMember users actor.id a))

/-- The socket room scoped to a user (`user:<id>`). -/
def roomUser (uid : Id) : String := "user:" ++ uid

/-- The deduplicated creator/assignee room set (`new Set()` with
`user:createdBy` and, when set, `user:assignedTo`). -/
def ownerRooms (createdBy : Id) (assignedTo : Option Id) : Finset String :=
  insert (roomUser createdBy)
    (match assignedTo with
     | some a => {roomUser a}
     | none => (∅ : Finset String))

/-- One `io.to([...rooms]).emit(event, payload)` call: a single
multi-target publish of one event to a deduplicated room set. -/
structure Emit where
  event : String
  rooms : Finset String
deriving DecidableEq

/-- The emit sequence of `createOrder` (Logic.js lines 472-497): a single
`notification` event to creator, assignee (if any) and `admins`. -/
def createOrderEmits (o : Order) : List Emit :=
  [⟨"notification", insert "admins" (ownerRooms o.createdBy o.assignedTo)⟩]

/-- The emit sequence of `editEntry` (Logic.js lines 1148-1165): a single
`notification` event to creator, assignee (if any) and `admins`. -/
def editEntryEmits (o : Order) : List Emit :=
  [⟨"notification", insert "admins" (ownerRooms o.createdBy o.assignedTo)⟩]

/-- The emit sequence of `DeleteData` (Logic.js lines 1383-1409): a
`deleteOrder` event to creator and assignee, then a `notification` event
to the same rooms plus `admins`. -/
def deleteDataEmits (o : Order) : List Emit :=
  [⟨"deleteOrder", ownerRooms o.createdBy o.assignedTo⟩,
   ⟨"notification", insert "admins" (ownerRooms o.createdBy o.assignedTo)⟩]

/-- One spreadsheet row of a bulk upload, restricted to the columns the
handler reads for validation and derivation.  Numeric cells are modelled
by their `Number(...)` conversion (`none` = `NaN`). -/
structure Row where
  productType : String := ""
  quantity : Option ℚ := none
  unitPrice : Option ℚ := none
  gst : GstIn := .other false none
  modelNos : String := ""
  brand : String := ""
  warranty : String := ""
  orderType : String := ""
  freightCharges : RawNum := ⟨false, none⟩
  installationCharges : RawNum := ⟨false, none⟩
  paymentCollected : RawNum := ⟨false, none⟩
  dispatchFrom : String := ""
  customername : String := ""
deriving DecidableEq

/-- Warranty default of the bulk upload (Logic.js lines 1479-1485),
mirroring the create precedence. -/
def rowWarranty (r : Row) : String :=
  if r.warranty ≠ "" then r.warranty
  else if r.orderType = "B2G" then "As Per Tender"
  else if r.productType = "IFPD" ∧ r.brand = "Promark" then "3 Years"
  else "1 Year"

/-- The single product built from a row (Logic.js lines 1465-1487):
`qty`/`unitPrice` are `Number(cell) || 0`, `gst` is defaulted to "18" when
falsy, `modelNos` comma-split. -/
def rowProduct (r : Row) : ProductRec :=
  { productType := r.productType
    qty := RawNum.ofRat (r.quantity.getD 0)
    unitPrice := RawNum.ofRat (r.unitPrice.getD 0)
    gst := if gstTruthy r.gst then r.gst else .other true (some 18)
    warranty := rowWarranty r
    modelNos := if r.modelNos = "" then [] else (r.modelNos.splitOn ",").map (fun m => m.trim)
    serialNos := []
    brand := r.brand }

/-- Per-product validation of the bulk upload (Logic.js lines 1490-1525).
It differs from create: `unitPrice` must be truthy (so 0 is rejected),
there is no `unitPrice < 0` check, and the built `modelNos` is an array
(always truthy), so the IFPD check reduces to the brand check. -/
def bulkProductError (p : ProductRec) : Option String :=
  if (p.productType == "") || !p.qty.truthy || !p.unitPrice.truthy
      || !(gstTruthy p.gst) || (p.warranty == "") then
    some "Invalid product data in row"
  else if nanOrNonpos p.qty.num || p.unitPrice.num.isNone || gstNaN p.gst then
    some "Invalid product data in row"
  else if (p.productType == "IFPD") && (p.brand == "") then
    some "Model Numbers and Brand are required for IFPD products in row"
  else none

/-- Full validation of one row: product checks, then the dispatch-location
check (Logic.js lines 1543-1551). -/
def rowCheck (r : Row) : Option String :=
  match bulkProductError (rowProduct r) with
  | some e => some e
  | none =>
    if r.dispatchFrom ≠ "" ∧ r.dispatchFrom ∉ validDispatchLocations then
      some "Invalid dispatchFrom value in row"
    else none

/-- The reduce computing a stored-product line total, shared by the bulk
total (Logic.js lines 1528-1537). -/
def sumRecLines (ps : List ProductRec) : ℚ :=
  ps.foldl
    (fun s p => s + (p.qty.num.getD 0) * (p.unitPrice.num.getD 0) * (1 + gstRate p.gst / 100))
    0

/-- The order document built from one valid row (Logic.js lines
1554-1592): exactly one product, derived total and payment due. -/
def rowToOrder (uid : Id) (r : Row) (now : Time) : Order :=
  let products := [rowProduct r]
  let calculatedTotal :=
    jadd (jadd (some (sumRecLines products)) (numOr0 r.freightCharges))
      (numOr0 r.installationCharges)
  let calculatedPaymentDue := jsub calculatedTotal (numOr0 r.paymentCollected)
  { soDate := now
    createdBy := uid
    customername := r.customername
    orderType := if r.orderType = "" then "B2C" else r.orderType
    dispatchFrom := if r.dispatchFrom = "" then none else some r.dispatchFrom
    products := products
    total := calculatedTotal
    paymentDue := calculatedPaymentDue }

/-- Outcome of a bulk upload: all orders persisted together by
`insertMany`, or a 400 error carrying the offending row. -/
inductive BulkRes
  | ok (orders : List Order)
  | rowError (row : Row) (msg : String)
deriving DecidableEq

/-- The row loop of `bulkUploadOrders`: the first invalid row aborts the
whole request before anything is persisted. -/
def bulkGo (uid : Id) (now : Time) : List Row → List Order → BulkRes
  | [], acc => .ok acc.reverse
  | r :: rest, acc =>
    match rowCheck r with
    | some msg => .rowError r msg
    | none => bulkGo uid now rest (rowToOrder uid r now :: acc)

/-- The `bulkUploadOrders` handler (Logic.js lines 1438-1636) on the
parsed sheet rows. -/
def bulkUploadOrders (uid : Id) (rows : List Row) (now : Time) : BulkRes :=
  bulkGo uid now rows []

/-- A document of the Notifications collection. -/
structure NotificationRec where
  message : String := ""
  timestamp : Time := 0
  isRead : Bool := false
  role : String := "All"
  userId : Option Id := none
deriving DecidableEq

/-- The sort key of `getNotifications` (`.sort({ timestamp: -1 })`):
newest first. -/
def newerFirst (a b : NotificationRec) : Prop := b.timestamp ≤ a.timestamp

instance : DecidableRel newerFirst := fun a b => Nat.decLe b.timestamp a.timestamp

instance : IsTotal NotificationRec newerFirst :=
  ⟨fun a b => le_total b.timestamp a.timestamp⟩

instance : IsTrans NotificationRec newerFirst :=
  ⟨fun _ _ _ h1 h2 => le_trans h2 h1⟩

/-- The `getNotifications` handler (Logic.js lines 2041-2067): any
authenticated caller receives the 50 most recent `role: "All"`
notifications, newest first; the caller's identity influences nothing
beyond the authentication check. -/
def getNotifications (caller : Option ReqUser) (db : List NotificationRec) :
    Res (List NotificationRec) :=
  match caller with
  | none => .unauthorized "Unauthorized: User not authenticated"
  | some u =>
    if u.id = "" then .unauthorized "Unauthorized: User not authenticated"
    else .ok (((db.filter (fun n => n.role == "All")).insertionSort newerFirst).take 50)

/-- The `markNotificationsRead` handler (Logic.js lines 2070-2084):
`updateMany({ role: "All" }, { isRead: true })` — every `role: "All"`
notification is marked read regardless of its `userId`. -/
def markNotificationsRead (db : List NotificationRec) : List NotificationRec :=
  db.map (fun n => if n.role = "All" then { n with isRead := true } else n)

/-- The `clearNotifications` handler (Logic.js lines 2087-2099):
`deleteMany({ role: "All" })`. -/
def clearNotifications (db : List NotificationRec) : List NotificationRec :=
  db.filter (fun n => !(n.role == "All"))

/-- Order carried by a successful handler outcome (defaulted otherwise);
used to state concrete evaluations. -/
def resOrder : Res Order → Order
  | .ok o => o
  | _ => default

/-- Concrete fixture: an order already dispatched from Morinda. -/
def c1Ex : Order :=
  { createdBy := "u1", dispatchFrom := some "Morinda",
    fulfillingStatus := "Fulfilled", completionStatus := "Complete" }

/-- Concrete fixture: an edit payload re-sending `dispatchFrom = "Morinda"`. -/
def c1P : EditPayload := { dispatchFrom := some (some "Morinda") }

/-- Result of the claim C1 counterexample edit. -/
def c1Res : Order := resOrder (editEntry ⟨"e1", "Admin"⟩ (some c1Ex) c1P 5)

/-- Concrete fixture: an order dispatched from Patna. -/
def w1Ex : Order :=
  { createdBy := "u1", dispatchFrom := some "Patna", fulfillingStatus := "Fulfilled" }

/-- Concrete fixture: an edit changing `dispatchFrom` to Morinda while also
manually supplying `fulfillingStatus = "Fulfilled"`. -/
def w1P : EditPayload :=
  { dispatchFrom := some (some "Morinda"), fulfillingStatus := some (some "Fulfilled") }

/-- Result of the Morinda-bound witness edit. -/
def w1Res : Order := resOrder (editEntry ⟨"e1", "Sales"⟩ (some w1Ex) w1P 11)

/-- Concrete fixture: an order dispatched from Morinda, still pending. -/
def w1bEx : Order :=
  { createdBy := "u1", dispatchFrom := some "Morinda", fulfillingStatus := "Pending" }

/-- Concrete fixture: an edit changing `dispatchFrom` to Delhi. -/
def w1bP : EditPayload := { dispatchFrom := some (some "Delhi") }

/-- Result of the Delhi-bound witness edit. -/
def w1bRes : Order := resOrder (editEntry ⟨"e1", "Sales"⟩ (some w1bEx) w1bP 11)

/-- Concrete fixture: the two-product payload of the spec scenario
(2 × 100 at 18% GST, 1 × 50 including GST, freight 20, installation 0). -/
def w2P : CreatePayload :=
  { products :=
      [{ productType := "Board", qty := ⟨true, some 2⟩, unitPrice := ⟨true, some 100⟩,
         gst := .other true (some 18), warranty := "1 Year" },
       { productType := "Stand", qty := ⟨true, some 1⟩, unitPrice := ⟨true, some 50⟩,
         gst := .including, warranty := "1 Year" }]
    paymentTerms := "100% Advance"
    freightcs := ⟨true, some 20⟩ }

/-- Concrete fixture: a payload whose only product has a negative
quantity. -/
def w2BadP : CreatePayload :=
  { products :=
      [{ productType := "Board", qty := ⟨true, some (-1)⟩, unitPrice := ⟨true, some 100⟩,
         gst := .other true (some 18), warranty := "1 Year" }]
    paymentTerms := "Advance" }

/-- Concrete fixture: a Sales team leader. -/
def c3Actor : ReqUser := ⟨"lead1", "Sales"⟩

/-- Concrete fixture: one direct team member of `lead1` and one user of a
different team. -/
def c3Users : List UserRec :=
  [⟨"m1", "Sales", some "lead1"⟩, ⟨"m2", "Sales", some "other"⟩]

/-- Concrete fixture: an order created by the team member. -/
def c3Ord : Order := { createdBy := "m1" }

/-- Concrete fixture: an order created by `u1` with no assignee. -/
def c4Ord : Order := { createdBy := "u1", remarks := "old" }

/-- Concrete fixture: an edit payload changing only `remarks`. -/
def c4P : EditPayload := { remarks := some (some "new") }

/-- The order resulting from the unauthorized-actor edit of claim C4. -/
def c4OrdAfter : Order := { createdBy := "u1", remarks := "new" }

/-- Concrete fixture: an order awaiting approval. -/
def w5Ex : Order := { createdBy := "u1", sostatus := "Pending for Approval" }

/-- Concrete fixture: an edit payload approving the order. -/
def w5P : EditPayload := { sostatus := some (some "Approved") }

/-- Concrete fixture: an order already approved at time 42. -/
def w5Ex2 : Order :=
  { createdBy := "u1", sostatus := "Approved", approvalTimestamp := some 42 }

/-- Results of the claim C5 witness edits. -/
def w5Res : Order := resOrder (editEntry ⟨"e1", "Admin"⟩ (some w5Ex) w5P 33)

/-- Result of the already-approved witness edit. -/
def w5Res2 : Order := resOrder (editEntry ⟨"e1", "Admin"⟩ (some w5Ex2) w5P 33)

/-- Concrete fixture: an order with no dispatch or receipt dates. -/
def w6Ex : Order := { createdBy := "u1" }

/-- Concrete fixture: an edit payload marking the order delivered. -/
def w6P : EditPayload := { dispatchStatus := some (some "Delivered") }

/-- Result of the claim C6 witness edit. -/
def w6Res : Order := resOrder (editEntry ⟨"e1", "Sales"⟩ (some w6Ex) w6P 77)

/-- Concrete fixture: an order already fulfilled at time 100. -/
def c7Ex : Order :=
  { createdBy := "u1", dispatchFrom := some "Patna", fulfillmentDate := some 100 }

/-- Concrete fixture: an edit re-sending `fulfillingStatus = "Fulfilled"`
together with an explicit new `fulfillmentDate`. -/
def c7P : EditPayload :=
  { fulfillingStatus := some (some "Fulfilled"),
    fulfillmentDate := some (some (.valid 200)) }

/-- Result of the claim C7 counterexample edit. -/
def c7Res : Order := resOrder (editEntry ⟨"e1", "Sales"⟩ (some c7Ex) c7P 300)

/-- Concrete fixture: an edit re-sending only `fulfillingStatus`. -/
def w7P : EditPayload := { fulfillingStatus := some (some "Fulfilled") }

/-- Result of the claim C7 witness edit. -/
def w7Res : Order := resOrder (editEntry ⟨"e1", "Sales"⟩ (some c7Ex) w7P 300)

/-- Concrete fixture: an order with a creator and no assignee. -/
def c8Ord : Order := { createdBy := "u1" }

/-- Concrete fixture: an order whose creator is also its assignee. -/
def w8Ord : Order := { createdBy := "u1", assignedTo := some "u1" }

/-- Concrete fixture: a bulk row whose product has unit price 0 (rejected
by the bulk validation, accepted by create). -/
def c9Row : Row :=
  { productType := "Board", quantity := some 1, unitPrice := some 0,
    gst := .other true (some 18), warranty := "1 Year", orderType := "B2C" }

/-- Concrete fixture: the create payload carrying the same product values
as `c9Row`. -/
def c9P : CreatePayload :=
  { products :=
      [{ productType := "Board", qty := ⟨true, some 1⟩, unitPrice := ⟨false, some 0⟩,
         gst := .other true (some 18), warranty := "1 Year" }]
    orderType := "B2C"
    paymentTerms := "Advance" }

/-- Concrete fixture: a valid bulk row. -/
def w9Row : Row :=
  { productType := "Board", quantity := some 2, unitPrice := some 5,
    gst := .other true (some 18), warranty := "1 Year" }

/-- Concrete fixture: a bulk row missing its product type. -/
def w9BadRow : Row :=
  { productType := "", quantity := some 2, unitPrice := some 5,
    gst := .other true (some 18) }

/-- Concrete fixture: a small Notifications collection. -/
def w10Db : List NotificationRec :=
  [{ message := "a", timestamp := 5, role := "All", userId := some "u1" },
   { message := "b", timestamp := 9, role := "All", userId := some "u2" },
   { message := "c", timestamp := 7, role := "Other", userId := some "u1" }]

/-- Result of the claim C2 witness create. -/
def w2Res : Order := resOrder (createOrder "u1" w2P 0)

/-- Notification list carried by a successful outcome (empty otherwise). -/
def resList : Res (List NotificationRec) → List NotificationRec
  | .ok l => l
  | _ => []

/-- Result of the claim C10 witness listing. -/
def w10Out : List NotificationRec :=
  resList (getNotifications (some ⟨"u1", "Sales"⟩) w10Db)

/-- Concrete fixture: the first notification of `w10Db`. -/
def w10N0 : NotificationRec :=
  { message := "a", timestamp := 5, role := "All", userId := some "u1" }

lemma aR_dispatchFrom (ex : Order) (now : Time) (u : UpdateFields) :
    (applyApprovalRule ex now u).dispatchFrom = u.dispatchFrom := by
  unfold applyApprovalRule; split <;> rfl

lemma aR_sostatus (ex : Order) (now : Time) (u : UpdateFields) :
    (applyApprovalRule ex now u).sostatus = u.sostatus := by
  unfold applyApprovalRule; split <;> rfl

lemma aR_fulfillingStatus (ex : Order) (now : Time) (u : UpdateFields) :
    (applyApprovalRule ex now u).fulfillingStatus = u.fulfillingStatus := by
  unfold applyApprovalRule; split <;> rfl

lemma aR_completionStatus (ex : Order) (now : Time) (u : UpdateFields) :
    (applyApprovalRule ex now u).completionStatus = u.completionStatus := by
  unfold applyApprovalRule; split <;> rfl

lemma aR_dispatchStatus (ex : Order) (now : Time) (u : UpdateFields) :
    (applyApprovalRule ex now u).dispatchStatus = u.dispatchStatus := by
  unfold applyApprovalRule; split <;> rfl

lemma aR_dispatchDate (ex : Order) (now : Time) (u : UpdateFields) :
    (applyApprovalRule ex now u).dispatchDate = u.dispatchDate := by
  unfold applyApprovalRule; split <;> rfl

lemma aR_receiptDate (ex : Order) (now : Time) (u : UpdateFields) :
    (applyApprovalRule ex now u).receiptDate = u.receiptDate := by
  unfold applyApprovalRule; split <;> rfl

lemma aR_fulfillmentDate (ex : Order) (now : Time) (u : UpdateFields) :
    (applyApprovalRule ex now u).fulfillmentDate = u.fulfillmentDate := by
  unfold applyApprovalRule; split <;> rfl

lemma aR_apT_set (ex : Order) (now : Time) (u : UpdateFields)
    (h1 : u.sostatus = some "Approved") (h2 : ex.sostatus ≠ "Approved") :
    (applyApprovalRule ex now u).approvalTimestamp = some now := by
  unfold applyApprovalRule; rw [if_pos ⟨h1, h2⟩]

lemma aR_apT_keep (ex : Order) (now : Time) (u : UpdateFields)
    (h : ex.sostatus = "Approved") :
    (applyApprovalRule ex now u).approvalTimestamp = u.approvalTimestamp := by
  unfold applyApprovalRule
  rw [if_neg]
  rintro ⟨-, h2⟩
  exact h2 h

lemma mR_sostatus (ex : Order) (p : EditPayload) (now : Time) (u : UpdateFields) :
    (applyMorindaRule ex p now u).sostatus = u.sostatus := by
  unfold applyMorindaRule; split_ifs <;> rfl

lemma mR_dispatchFrom (ex : Order) (p : EditPayload) (now : Time) (u : UpdateFields) :
    (applyMorindaRule ex p now u).dispatchFrom = u.dispatchFrom := by
  unfold applyMorindaRule; split_ifs <;> rfl

lemma mR_dispatchStatus (ex : Order) (p : EditPayload) (now : Time) (u : UpdateFields) :
    (applyMorindaRule ex p now u).dispatchStatus = u.dispatchStatus := by
  unfold applyMorindaRule; split_ifs <;> rfl

lemma mR_dispatchDate (ex : Order) (p : EditPayload) (now : Time) (u : UpdateFields) :
    (applyMorindaRule ex p now u).dispatchDate = u.dispatchDate := by
  unfold applyMorindaRule; split_ifs <;> rfl

lemma mR_receiptDate (ex : Order) (p : EditPayload) (now : Time) (u : UpdateFields) :
    (applyMorindaRule ex p now u).receiptDate = u.receiptDate := by
  unfold applyMorindaRule; split_ifs <;> rfl

lemma mR_approvalTimestamp (ex : Order) (p : EditPayload) (now : Time)
    (u : UpdateFields) :
    (applyMorindaRule ex p now u).approvalTimestamp = u.approvalTimestamp := by
  unfold applyMorindaRule; split_ifs <;> rfl

lemma mR_pending (ex : Order) (p : EditPayload) (now : Time) (u : UpdateFields)
    (h1 : dfChanging ex u = true) (h2 : u.dispatchFrom = some "Morinda") :
    applyMorindaRule ex p now u =
      { u with fulfillingStatus := some "Pending",
               completionStatus := some "In Progress" } := by
  unfold applyMorindaRule
  rw [if_pos h1, if_pos h2]

lemma mR_other (ex : Order) (p : EditPayload) (now : Time) (u : UpdateFields)
    (h1 : dfChanging ex u = true) (h2 : u.dispatchFrom ≠ some "Morinda") :
    applyMorindaRule ex p now u =
      { u with fulfillingStatus := some "Fulfilled",
               completionStatus := some "Complete",
               fulfillmentDate := some now } := by
  unfold applyMorindaRule
  rw [if_pos h1, if_neg h2]

lemma mR_manual (ex : Order) (p : EditPayload) (now : Time) (u : UpdateFields)
    (h1 : dfChanging ex u = false) (h2 : p.fulfillingStatus.isSome = true)
    (h3 : u.fulfillingStatus = some "Fulfilled") :
    applyMorindaRule ex p now u =
      { u with completionStatus := some "Complete",
               fulfillmentDate :=
                 if ex.fulfillmentDate = none then some now else u.fulfillmentDate } := by
  unfold applyMorindaRule
  rw [if_neg (by simp [h1]), if_pos h2, if_pos h3]

lemma dfChanging_eq_of_df (ex : Order) (u w : UpdateFields)
    (h : u.dispatchFrom = w.dispatchFrom) : dfChanging ex u = dfChanging ex w := by
  unfold dfChanging; rw [h]

lemma dR_fulfillingStatus (ex : Order) (p : EditPayload) (now : Time)
    (u : UpdateFields) :
    (applyDispatchDateRule ex p now u).fulfillingStatus = u.fulfillingStatus := by
  unfold applyDispatchDateRule; split <;> rfl

lemma dR_completionStatus (ex : Order) (p : EditPayload) (now : Time)
    (u : UpdateFields) :
    (applyDispatchDateRule ex p now u).completionStatus = u.completionStatus := by
  unfold applyDispatchDateRule; split <;> rfl

lemma dR_fulfillmentDate (ex : Order) (p : EditPayload) (now : Time)
    (u : UpdateFields) :
    (applyDispatchDateRule ex p now u).fulfillmentDate = u.fulfillmentDate := by
  unfold applyDispatchDateRule; split <;> rfl

lemma dR_receiptDate (ex : Order) (p : EditPayload) (now : Time) (u : UpdateFields) :
    (applyDispatchDateRule ex p now u).receiptDate = u.receiptDate := by
  unfold applyDispatchDateRule; split <;> rfl

lemma dR_dispatchStatus (ex : Order) (p : EditPayload) (now : Time)
    (u : UpdateFields) :
    (applyDispatchDateRule ex p now u).dispatchStatus = u.dispatchStatus := by
  unfold applyDispatchDateRule; split <;> rfl

lemma dR_approvalTimestamp (ex : Order) (p : EditPayload) (now : Time)
    (u : UpdateFields) :
    (applyDispatchDateRule ex p now u).approvalTimestamp = u.approvalTimestamp := by
  unfold applyDispatchDateRule; split <;> rfl

lemma dR_set (ex : Order) (p : EditPayload) (now : Time) (u : UpdateFields)
    (h1 : p.dispatchStatus.isSome = true)
    (h2 : u.dispatchStatus = some "Dispatched" ∨ u.dispatchStatus = some "Delivered")
    (h3 : p.dispatchDate = none) (h4 : ex.dispatchDate = none) :
    (applyDispatchDateRule ex p now u).dispatchDate = some now := by
  unfold applyDispatchDateRule
  rw [if_pos ⟨h1, h2, h3, h4⟩]

lemma rR_fulfillingStatus (ex : Order) (now : Time) (u : UpdateFields) :
    (applyReceiptDateRule ex now u).fulfillingStatus = u.fulfillingStatus := by
  unfold applyReceiptDateRule; split <;> rfl

lemma rR_completionStatus (ex : Order) (now : Time) (u : UpdateFields) :
    (applyReceiptDateRule ex now u).completionStatus = u.completionStatus := by
  unfold applyReceiptDateRule; split <;> rfl

lemma rR_fulfillmentDate (ex : Order) (now : Time) (u : UpdateFields) :
    (applyReceiptDateRule ex now u).fulfillmentDate = u.fulfillmentDate := by
  unfold applyReceiptDateRule; split <;> rfl

lemma rR_dispatchDate (ex : Order) (now : Time) (u : UpdateFields) :
    (applyReceiptDateRule ex now u).dispatchDate = u.dispatchDate := by
  unfold applyReceiptDateRule; split <;> rfl

lemma rR_approvalTimestamp (ex : Order) (now : Time) (u : UpdateFields) :
    (applyReceiptDateRule ex now u).approvalTimestamp = u.approvalTimestamp := by
  unfold applyReceiptDateRule; split <;> rfl

lemma rR_set (ex : Order) (now : Time) (u : UpdateFields)
    (h1 : u.dispatchStatus = some "Delivered") (h2 : ex.receiptDate = none) :
    (applyReceiptDateRule ex now u).receiptDate = some now := by
  unfold applyReceiptDateRule
  rw [if_pos ⟨h1, h2⟩]

lemma presentVal_isSome {α : Type} {f : Option (Option α)} {v : α}
    (h : presentVal f = some v) : f.isSome = true := by
  rcases f with - | f
  · simp [presentVal] at h
  · rfl

lemma editEntry_ok {actor : ReqUser} {ex : Order} {p : EditPayload} {now : Time}
    {o' : Order} (h : editEntry actor (some ex) p now = Res.ok o') :
    o' = applyUpdate ex (buildUpdateFields ex p now) := by
  unfold editEntry at h
  cases h
  rfl

/-- C5: an edit whose payload sets `sostatus = "Approved"` while the stored
value differs stamps `approvalTimestamp` with the operation time; when the
stored value is already "Approved" the timestamp is left unchanged, so the
approval transition sets it exactly once. -/
theorem c5_approval_timestamp :
    ∀ (actor : ReqUser) (ex : Order) (p : EditPayload) (now : Time) (o' : Order),
      editEntry actor (some ex) p now = Res.ok o' →
      ((presentVal p.sostatus = some "Approved" → ex.sostatus ≠ "Approved" →
          o'.approvalTimestamp = some now)
        ∧ (ex.sostatus = "Approved" →
          o'.approvalTimestamp = ex.approvalTimestamp)) := by
  intro actor ex p now o' h
  have ho := editEntry_ok h
  subst ho
  constructor
  · intro h1 h2
    have hb : (buildUpdateFields ex p now).approvalTimestamp = some now := by
      unfold buildUpdateFields
      rw [rR_approvalTimestamp, dR_approvalTimestamp, mR_approvalTimestamp]
      exact aR_apT_set ex now (loopFields p) h1 h2
    simp [applyUpdate, hb, setOptOr]
  · intro h1
    have hb : (buildUpdateFields ex p now).approvalTimestamp = none := by
      unfold buildUpdateFields
      rw [rR_approvalTimestamp, dR_approvalTimestamp, mR_approvalTimestamp,
        aR_apT_keep ex now (loopFields p) h1]
      rfl
    simp [applyUpdate, hb, setOptOr]

/-- C5 witness: approving a pending order at time 33 stamps
`approvalTimestamp = 33`; re-approving an order approved at time 42 keeps
the stored timestamp. -/
theorem c5_witness :
    (presentVal w5P.sostatus = some "Approved" ∧ w5Ex.sostatus ≠ "Approved" ∧
      w5Res.approvalTimestamp = some 33) ∧
    (w5Ex2.sostatus = "Approved" ∧ w5Res2.approvalTimestamp = w5Ex2.approvalTimestamp) :=
  ⟨⟨rfl, by decide,
      (c5_approval_timestamp ⟨"e1", "Admin"⟩ w5Ex w5P 33 w5Res rfl).1 rfl (by decide)⟩,
    ⟨rfl, (c5_approval_timestamp ⟨"e1", "Admin"⟩ w5Ex2 w5P 33 w5Res2 rfl).2 rfl⟩⟩

lemma dispatchFromOptions_ne : ∀ v ∈ dispatchFromOptions, v ≠ "" ∧ v ≠ "Morinda" := by
  decide

/-- C1 counterexample: re-sending `dispatchFrom = "Morinda"` on an order
already dispatched from Morinda does not force `fulfillingStatus =
"Pending"` — the rule only fires when the value changes, so the stored
"Fulfilled" survives. -/
theorem c1_counterexample :
    presentVal c1P.dispatchFrom = some "Morinda" ∧
    editEntry ⟨"e1", "Admin"⟩ (some c1Ex) c1P 5 = Res.ok c1Res ∧
    c1Res.fulfillingStatus = "Fulfilled" ∧
    c1Res.completionStatus = "Complete" := by
  exact ⟨rfl, by decide, by decide, by decide⟩

/-- C1 (amended): when an edit sets `dispatchFrom` to a value that differs
from the stored one, "Morinda" forces `fulfillingStatus = "Pending"` and
`completionStatus = "In Progress"` regardless of any `fulfillingStatus`
supplied in the same request, and any other enumerated location forces
`fulfillingStatus = "Fulfilled"`, `completionStatus = "Complete"` and a
freshly set `fulfillmentDate`. -/
theorem c1_morinda_rule :
    ∀ (actor : ReqUser) (ex : Order) (p : EditPayload) (now : Time) (o' : Order),
      editEntry actor (some ex) p now = Res.ok o' →
      ((presentVal p.dispatchFrom = some "Morinda" →
          ex.dispatchFrom ≠ some "Morinda" →
          o'.fulfillingStatus = "Pending" ∧ o'.completionStatus = "In Progress")
        ∧ (∀ v, presentVal p.dispatchFrom = some v → v ∈ dispatchFromOptions →
            ex.dispatchFrom ≠ some v →
            o'.fulfillingStatus = "Fulfilled" ∧ o'.completionStatus = "Complete"
              ∧ o'.fulfillmentDate = some now)) := by
  intro actor ex p now o' h
  have ho := editEntry_ok h
  subst ho
  set u1 := applyApprovalRule ex now (loopFields p) with hu1
  constructor
  · intro h1 h2
    have hdf : u1.dispatchFrom = some "Morinda" := by
      rw [hu1, aR_dispatchFrom]; exact h1
    have hch : dfChanging ex u1 = true := by
      simp [dfChanging, hdf, h2]
    have hm := mR_pending ex p now u1 hch hdf
    have hff : (buildUpdateFields ex p now).fulfillingStatus = some "Pending" := by
      unfold buildUpdateFields
      rw [rR_fulfillingStatus, dR_fulfillingStatus, ← hu1, hm]
    have hcs : (buildUpdateFields ex p now).completionStatus = some "In Progress" := by
      unfold buildUpdateFields
      rw [rR_completionStatus, dR_completionStatus, ← hu1, hm]
    exact ⟨by simp [applyUpdate, hff, setOr], by simp [applyUpdate, hcs, setOr]⟩
  · intro v h1 hv h2
    obtain ⟨hv1, hv2⟩ := dispatchFromOptions_ne v hv
    have hdf : u1.dispatchFrom = some v := by
      rw [hu1, aR_dispatchFrom]; exact h1
    have hch : dfChanging ex u1 = true := by
      simp [dfChanging, hdf, h2, hv1]
    have hdfne : u1.dispatchFrom ≠ some "Morinda" := by
      rw [hdf]; simp [hv2]
    have hm := mR_other ex p now u1 hch hdfne
    have hff : (buildUpdateFields ex p now).fulfillingStatus = some "Fulfilled" := by
      unfold buildUpdateFields
      rw [rR_fulfillingStatus, dR_fulfillingStatus, ← hu1, hm]
    have hcs : (buildUpdateFields ex p now).completionStatus = some "Complete" := by
      unfold buildUpdateFields
      rw [rR_completionStatus, dR_completionStatus, ← hu1, hm]
    have hfd : (buildUpdateFields ex p now).fulfillmentDate = some now := by
      unfold buildUpdateFields
      rw [rR_fulfillmentDate, dR_fulfillmentDate, ← hu1, hm]
    exact ⟨by simp [applyUpdate, hff, setOr], by simp [applyUpdate, hcs, setOr],
      by simp [applyUpdate, hfd, setOptOr]⟩

/-- C1 witness: changing Patna → Morinda (with a manual "Fulfilled" also
supplied) yields Pending / In Progress; changing Morinda → Delhi yields
Fulfilled / Complete with `fulfillmentDate = 11`. -/
theorem c1_witness :
    (presentVal w1P.dispatchFrom = some "Morinda" ∧
      w1Ex.dispatchFrom ≠ some "Morinda" ∧
      presentVal w1P.fulfillingStatus = some "Fulfilled" ∧
      w1Res.fulfillingStatus = "Pending" ∧ w1Res.completionStatus = "In Progress") ∧
    (presentVal w1bP.dispatchFrom = some "Delhi" ∧ "Delhi" ∈ dispatchFromOptions ∧
      w1bEx.dispatchFrom ≠ some "Delhi" ∧
      w1bRes.fulfillingStatus = "Fulfilled" ∧ w1bRes.completionStatus = "Complete" ∧
      w1bRes.fulfillmentDate = some 11) := by
  refine ⟨⟨rfl, by decide, rfl, ?_, ?_⟩, ⟨rfl, by decide, by decide, ?_, ?_, ?_⟩⟩
  · exact ((c1_morinda_rule ⟨"e1", "Sales"⟩ w1Ex w1P 11 w1Res rfl).1 rfl (by decide)).1
  · exact ((c1_morinda_rule ⟨"e1", "Sales"⟩ w1Ex w1P 11 w1Res rfl).1 rfl (by decide)).2
  · exact ((c1_morinda_rule ⟨"e1", "Sales"⟩ w1bEx w1bP 11 w1bRes rfl).2 "Delhi" rfl
      (by decide) (by decide)).1
  · exact ((c1_morinda_rule ⟨"e1", "Sales"⟩ w1bEx w1bP 11 w1bRes rfl).2 "Delhi" rfl
      (by decide) (by decide)).2.1
  · exact ((c1_morinda_rule ⟨"e1", "Sales"⟩ w1bEx w1bP 11 w1bRes rfl).2 "Delhi" rfl
      (by decide) (by decide)).2.2

/-- C4 counterexample: a Sales actor who is neither the creator, the
assignee, nor a leader of either (its visibility predicate rejects the
order) nevertheless edits the order successfully — the edit path performs
no authorization and the order changes. -/
theorem c4_counterexample :
    visQuery ⟨"u9", "Sales"⟩ [] c4Ord = false ∧
    editEntry ⟨"u9", "Sales"⟩ (some c4Ord) c4P 7 = Res.ok c4OrdAfter ∧
    c4OrdAfter ≠ c4Ord := by
  exact ⟨by decide, by decide, by decide⟩

/-- C4 (amended): the edit path performs no visibility-scope
authorization: the outcome of `editEntry` does not depend on the acting
user at all and is never an authorization refusal; only order existence is
checked. -/
theorem c4_no_edit_authorization :
    ∀ (a1 a2 : ReqUser) (existing : Option Order) (p : EditPayload) (now : Time),
      editEntry a1 existing p now = editEntry a2 existing p now
      ∧ ∀ msg, editEntry a1 existing p now ≠ Res.unauthorized msg := by
  intro a1 a2 existing p now
  refine ⟨?_, ?_⟩
  · cases existing <;> rfl
  · intro msg h
    cases existing <;> simp [editEntry] at h

/-- C4 witness: the out-of-scope Sales actor and an Admin obtain the same
edit outcome, and that outcome is not an authorization error. -/
theorem c4_witness :
    editEntry ⟨"u9", "Sales"⟩ (some c4Ord) c4P 7 =
      editEntry ⟨"adm", "Admin"⟩ (some c4Ord) c4P 7
    ∧ editEntry ⟨"u9", "Sales"⟩ (some c4Ord) c4P 7 ≠
      Res.unauthorized "Unauthorized to edit this order" :=
  ⟨(c4_no_edit_authorization ⟨"u9", "Sales"⟩ ⟨"adm", "Admin"⟩ (some c4Ord) c4P 7).1,
    (c4_no_edit_authorization ⟨"u9", "Sales"⟩ ⟨"adm", "Admin"⟩ (some c4Ord) c4P 7).2
      "Unauthorized to edit this order"⟩

/-- C6: an edit setting `dispatchStatus` to "Dispatched" or "Delivered"
with no dispatch date supplied or stored stamps `dispatchDate` with the
operation time; setting "Delivered" with no stored receipt date stamps
`receiptDate`; when neither prior date exists both fields receive the same
operation timestamp. -/
theorem c6_dispatch_dates :
    ∀ (actor : ReqUser) (ex : Order) (p : EditPayload) (now : Time) (o' : Order),
      editEntry actor (some ex) p now = Res.ok o' →
      ((∀ v, presentVal p.dispatchStatus = some v →
          (v = "Dispatched" ∨ v = "Delivered") →
          p.dispatchDate = none → ex.dispatchDate = none →
          o'.dispatchDate = some now)
        ∧ (presentVal p.dispatchStatus = some "Delivered" → ex.receiptDate = none →
          o'.receiptDate = some now)
        ∧ (presentVal p.dispatchStatus = some "Delivered" → p.dispatchDate = none →
          ex.dispatchDate = none → ex.receiptDate = none →
          o'.dispatchDate = some now ∧ o'.receiptDate = some now)) := by
  intro actor ex p now o' h
  have ho := editEntry_ok h
  subst ho
  have hds : ∀ v, presentVal p.dispatchStatus = some v →
      (applyMorindaRule ex p now (applyApprovalRule ex now (loopFields p))).dispatchStatus
        = some v := by
    intro v hv
    rw [mR_dispatchStatus, aR_dispatchStatus]
    exact hv
  have part1 : ∀ v, presentVal p.dispatchStatus = some v →
      (v = "Dispatched" ∨ v = "Delivered") →
      p.dispatchDate = none → ex.dispatchDate = none →
      (applyUpdate ex (buildUpdateFields ex p now)).dispatchDate = some now := by
    intro v hv hvv h3 h4
    have hb : (buildUpdateFields ex p now).dispatchDate = some now := by
      unfold buildUpdateFields
      rw [rR_dispatchDate]
      refine dR_set ex p now _ (presentVal_isSome hv) ?_ h3 h4
      rcases hvv with rfl | rfl
      · exact Or.inl (hds _ hv)
      · exact Or.inr (hds _ hv)
    simp [applyUpdate, hb, setOptOr]
  have part2 : presentVal p.dispatchStatus = some "Delivered" → ex.receiptDate = none →
      (applyUpdate ex (buildUpdateFields ex p now)).receiptDate = some now := by
    intro hv h2
    have hb : (buildUpdateFields ex p now).receiptDate = some now := by
      unfold buildUpdateFields
      refine rR_set ex now _ ?_ h2
      rw [dR_dispatchStatus]
      exact hds _ hv
    simp [applyUpdate, hb, setOptOr]
  exact ⟨part1, part2, fun hv h3 h4 h5 =>
    ⟨part1 "Delivered" hv (Or.inr rfl) h3 h4, part2 hv h5⟩⟩

/-- C6 witness: marking the fixture order Delivered at time 77 sets both
`dispatchDate` and `receiptDate` to 77. -/
theorem c6_witness :
    presentVal w6P.dispatchStatus = some "Delivered" ∧
    w6P.dispatchDate = none ∧ w6Ex.dispatchDate = none ∧ w6Ex.receiptDate = none ∧
    (w6Res.dispatchDate = some 77 ∧ w6Res.receiptDate = some 77) :=
  ⟨rfl, rfl, rfl, rfl,
    (c6_dispatch_dates ⟨"e1", "Sales"⟩ w6Ex w6P 77 w6Res rfl).2.2 rfl rfl rfl rfl⟩

/-- C7 counterexample: an edit that sets `fulfillingStatus = "Fulfilled"`
without changing `dispatchFrom` but also carries an explicit
`fulfillmentDate` does change the stored fulfillment date (100 → 200), so
the date is not untouchable under manual fulfillment edits. -/
theorem c7_counterexample :
    presentVal c7P.fulfillingStatus = some "Fulfilled" ∧
    c7P.dispatchFrom = none ∧
    c7Ex.fulfillmentDate = some 100 ∧
    editEntry ⟨"e1", "Sales"⟩ (some c7Ex) c7P 300 = Res.ok c7Res ∧
    c7Res.fulfillmentDate = some 200 := by
  exact ⟨rfl, rfl, rfl, by decide, by decide⟩

/-- C7 (amended): for an edit that sets `fulfillingStatus = "Fulfilled"`
without changing `dispatchFrom` and without itself carrying a valid
`fulfillmentDate`, an already-stored fulfillment date is left unchanged
and `completionStatus` is forced to "Complete". -/
theorem c7_fulfillment_idempotent :
    ∀ (actor : ReqUser) (ex : Order) (p : EditPayload) (now : Time) (o' : Order),
      editEntry actor (some ex) p now = Res.ok o' →
      dfChanging ex (loopFields p) = false →
      presentVal p.fulfillingStatus = some "Fulfilled" →
      presentDate p.fulfillmentDate = none →
      ∀ d : Time, ex.fulfillmentDate = some d →
        o'.fulfillmentDate = some d ∧ o'.completionStatus = "Complete" := by
  intro actor ex p now o' h hdf hff hfd d hd
  have ho := editEntry_ok h
  subst ho
  set u1 := applyApprovalRule ex now (loopFields p) with hu1
  have hch : dfChanging ex u1 = false := by
    rw [dfChanging_eq_of_df ex u1 (loopFields p) (by rw [hu1, aR_dispatchFrom])]
    exact hdf
  have hful : u1.fulfillingStatus = some "Fulfilled" := by
    rw [hu1, aR_fulfillingStatus]; exact hff
  have hm := mR_manual ex p now u1 hch (presentVal_isSome hff) hful
  have hite : (if ex.fulfillmentDate = none then some now else u1.fulfillmentDate)
      = none := by
    rw [if_neg (by simp [hd])]
    rw [hu1, aR_fulfillmentDate]
    exact hfd
  have hb : (buildUpdateFields ex p now).fulfillmentDate = none := by
    unfold buildUpdateFields
    rw [rR_fulfillmentDate, dR_fulfillmentDate, ← hu1, hm]
    exact hite
  have hcs : (buildUpdateFields ex p now).completionStatus = some "Complete" := by
    unfold buildUpdateFields
    rw [rR_completionStatus, dR_completionStatus, ← hu1, hm]
  exact ⟨by simp [applyUpdate, hb, setOptOr, hd], by simp [applyUpdate, hcs, setOr]⟩

/-- C7 witness: re-sending only `fulfillingStatus = "Fulfilled"` on the
fixture keeps `fulfillmentDate = 100` and forces "Complete". -/
theorem c7_witness :
    dfChanging c7Ex (loopFields w7P) = false ∧
    presentVal w7P.fulfillingStatus = some "Fulfilled" ∧
    presentDate w7P.fulfillmentDate = none ∧
    c7Ex.fulfillmentDate = some 100 ∧
    (w7Res.fulfillmentDate = some 100 ∧ w7Res.completionStatus = "Complete") :=
  ⟨by decide, rfl, rfl, rfl,
    c7_fulfillment_idempotent ⟨"e1", "Sales"⟩ c7Ex w7P 300 w7Res (by decide) (by decide)
      rfl rfl 100 rfl⟩

lemma productError_isSome_of_bad (p : ProductIn)
    (h : (match p.qty.num with | some q => decide (q ≤ 0) | none => false) = true
      ∨ (match p.unitPrice.num with | some q => decide (q < 0) | none => false) = true) :
    (productError p).isSome = true := by
  unfold productError
  split_ifs with h1 h2 h3
  · rfl
  · rfl
  · rfl
  · exfalso
    apply h2
    unfold prodBadNums
    simp only [Bool.or_eq_true]
    rcases h with hq | hp
    · left; left
      cases hqn : p.qty.num with
      | none => rfl
      | some q => rw [hqn] at hq; exact hq
    · left; right
      cases hpn : p.unitPrice.num with
      | none => rfl
      | some q => rw [hpn] at hp; exact hp

lemma firstProductError_isSome_of_bad (ps : List ProductIn)
    (h : hasBadProduct ps = true) : (firstProductError ps).isSome = true := by
  induction ps with
  | nil => simp [hasBadProduct] at h
  | cons p rest ih =>
    unfold firstProductError
    cases hpe : productError p with
    | some e => rfl
    | none =>
      simp only [hasBadProduct, List.any_cons, Bool.or_eq_true] at h
      rcases h with hbad | hrest
      · have hps := productError_isSome_of_bad p hbad
        rw [hpe] at hps
        simp at hps
      · exact ih hrest

/-- C2: a create without an explicit numeric `total` stores
`total = Σ qty × unitPrice × (1 + gstRate/100) + freight + installation`
(with gstRate 0 for "including"), a create without an explicit numeric
`paymentDue` additionally stores `paymentDue = total − paymentCollected`,
and any create whose product list contains an item with qty ≤ 0 or
unitPrice < 0 never persists an order. -/
theorem c2_total_derivation :
    (∀ (uid : Id) (p : CreatePayload) (now : Time) (f i c : ℚ) (o : Order),
        numOr0 p.freightcs = some f →
        numOr0 p.installation = some i →
        numOr0 p.paymentCollected = some c →
        suppliedNumeric p.total? = false →
        createOrder uid p now = Res.ok o →
        o.total = some (sumLines p.products + f + i)
          ∧ (suppliedNumeric p.paymentDue? = false →
            o.paymentDue = some (sumLines p.products + f + i - c)))
    ∧ (∀ (uid : Id) (p : CreatePayload) (now : Time),
        hasBadProduct p.products = true →
        ∀ o : Order, createOrder uid p now ≠ Res.ok o) := by
  constructor
  · intro uid p now f i c o hf hi hc ht hok
    have hTnn : p.total? = none ∨ p.total? = some none := by
      rcases hT : p.total? with - | (- | t)
      · exact Or.inl rfl
      · exact Or.inr rfl
      · rw [hT] at ht; simp [suppliedNumeric] at ht
    unfold createOrder at hok
    split_ifs at hok
    all_goals try exact Res.noConfusion hok
    all_goals
      cases hpe : firstProductError p.products with
      | some e => rw [hpe] at hok; exact Res.noConfusion hok
      | none =>
        rw [hpe] at hok
        simp only [Res.ok.injEq] at hok
        subst hok
        refine ⟨?_, ?_⟩
        · rcases hTnn with h | h <;> simp [h, jadd, hf, hi]
        · intro hd
          have hDnn : p.paymentDue? = none ∨ p.paymentDue? = some none := by
            rcases hD : p.paymentDue? with - | (- | d)
            · exact Or.inl rfl
            · exact Or.inr rfl
            · rw [hD] at hd; simp [suppliedNumeric] at hd
          rcases hDnn with h | h <;> simp [h, jadd, jsub, hf, hi, hc]
  · intro uid p now hbad o hok
    unfold createOrder at hok
    split_ifs at hok
    all_goals try exact Res.noConfusion hok
    all_goals
      have hs := firstProductError_isSome_of_bad p.products hbad
      cases hpe : firstProductError p.products with
      | none => rw [hpe] at hs; simp at hs
      | some e => rw [hpe] at hok; exact Res.noConfusion hok

lemma sumLines_w2P : sumLines w2P.products = 286 := by
  norm_num [w2P, sumLines, lineTotal, gstRate]

/-- C2 witness: the spec scenario 2 × 100 at 18% + 1 × 50 including +
freight 20 yields total 306 and payment due 306; a negative-quantity
product list is never persisted. -/
theorem c2_witness :
    (numOr0 w2P.freightcs = some 20 ∧ numOr0 w2P.installation = some 0 ∧
      numOr0 w2P.paymentCollected = some 0 ∧ suppliedNumeric w2P.total? = false ∧
      suppliedNumeric w2P.paymentDue? = false ∧
      w2Res.total = some (sumLines w2P.products + 20 + 0) ∧
      w2Res.paymentDue = some (sumLines w2P.products + 20 + 0 - 0) ∧
      sumLines w2P.products + 20 + 0 = 306) ∧
    (hasBadProduct w2BadP.products = true ∧
      createOrder "u1" w2BadP 0 ≠ Res.ok ({} : Order)) := by
  have h := c2_total_derivation.1 "u1" w2P 0 20 0 0 w2Res rfl rfl rfl rfl rfl
  exact ⟨⟨rfl, rfl, rfl, rfl, rfl, h.1, h.2 rfl, by rw [sumLines_w2P]; norm_num⟩,
    ⟨by decide, c2_total_derivation.2 "u1" w2BadP 0 (by decide) ({} : Order)⟩⟩

lemma mem_scopeIds (actor : ReqUser) (users : List UserRec) (x : Id) :
    x ∈ scopeIds actor users ↔ x = actor.id ∨ specDirectTeamMember users actor.id x := by
  simp only [scopeIds, teamMemberIds, List.mem_cons, List.mem_map, List.mem_filter,
    decide_eq_true_eq, specDirectTeamMember]
  constructor
  · rintro (rfl | ⟨u, ⟨hu, hl⟩, rfl⟩)
    · exact Or.inl rfl
    · exact Or.inr ⟨u, hu, hl, rfl⟩
  · rintro (rfl | ⟨u, hu, hl, rfl⟩)
    · exact Or.inl rfl
    · exact Or.inr ⟨u, ⟨hu, hl⟩, rfl⟩

/-- C3: the listing query is unrestricted for Admin/SuperAdmin; for any
other role it selects exactly the orders whose creator or assignee is the
actor or one of the actor's direct team members (single level); the
dashboard base query is the same predicate with orders whose
`dispatchStatus` is "Order Cancelled" additionally excluded. -/
theorem c3_visibility_scope :
    (∀ (actor : ReqUser) (users : List UserRec) (o : Order),
        (actor.role = "Admin" ∨ actor.role = "SuperAdmin") →
        visQuery actor users o = true)
    ∧ (∀ (actor : ReqUser) (users : List UserRec) (o : Order),
        actor.role ≠ "Admin" → actor.role ≠ "SuperAdmin" →
        (visQuery actor users o = true ↔ specInVisibilityScope actor users o))
    ∧ (∀ (actor : ReqUser) (users : List UserRec) (orders : List Order) (o : Order),
        o ∈ getAllOrders actor users orders ↔ o ∈ orders ∧ visQuery actor users o = true)
    ∧ (∀ (actor : ReqUser) (users : List UserRec) (o : Order),
        dashboardBaseQuery actor users o =
          (visQuery actor users o && !(o.dispatchStatus == "Order Cancelled"))) := by
  refine ⟨?_, ?_, ?_, ?_⟩
  · intro actor users o h
    unfold visQuery
    rw [if_pos h]
  · intro actor users o h1 h2
    unfold visQuery
    rw [if_neg (by rintro (h | h) <;> [exact h1 h; exact h2 h])]
    unfold orderMatchesScope specInVisibilityScope
    cases ha : o.assignedTo with
    | none =>
      simp only [ha, Bool.or_false, decide_eq_true_eq, mem_scopeIds]
      constructor
      · exact fun h => Or.inl h
      · rintro (h | ⟨a, ha2, -⟩)
        · exact h
        · exact absurd ha2 (by simp)
    | some a =>
      simp only [ha, Bool.or_eq_true, decide_eq_true_eq, mem_scopeIds,
        Option.some.injEq]
      constructor
      · rintro (h | h)
        · exact Or.inl h
        · exact Or.inr ⟨a, rfl, h⟩
      · rintro (h | ⟨a2, rfl, h⟩)
        · exact Or.inl h
        · exact Or.inr h
  · intro actor users orders o
    simp [getAllOrders, List.mem_filter]
  · intro actor users o
    unfold dashboardBaseQuery visQuery
    split_ifs with h
    · simp
    · exact Bool.and_comm _ _

/-- C3 witness: a Sales leader with one direct team member sees the team
member's order, and the dashboard query is the scope predicate minus
cancelled orders. -/
theorem c3_witness :
    c3Actor.role ≠ "Admin" ∧ c3Actor.role ≠ "SuperAdmin" ∧
    (visQuery c3Actor c3Users c3Ord = true ↔
      specInVisibilityScope c3Actor c3Users c3Ord) ∧
    visQuery c3Actor c3Users c3Ord = true ∧
    dashboardBaseQuery c3Actor c3Users c3Ord =
      (visQuery c3Actor c3Users c3Ord && !(c3Ord.dispatchStatus == "Order Cancelled")) :=
  ⟨by decide, by decide,
    c3_visibility_scope.2.1 c3Actor c3Users c3Ord (by decide) (by decide),
    by decide,
    c3_visibility_scope.2.2.2 c3Actor c3Users c3Ord⟩

lemma admins_ne_roomUser (x : Id) : "admins" ≠ roomUser x := by
  intro h
  have h1 := congrArg String.data h
  unfold roomUser at h1
  rw [String.data_append] at h1
  rw [show ("admins" : String).data = ['a', 'd', 'm', 'i', 'n', 's'] from by decide,
    show ("user:" : String).data = ['u', 's', 'e', 'r', ':'] from by decide] at h1
  simp only [List.cons_append, List.nil_append] at h1
  injection h1 with h2 h3
  exact absurd h2 (by decide)

lemma mem_ownerRooms (c : Id) (a : Option Id) (room : String) :
    room ∈ ownerRooms c a ↔
      (room = roomUser c ∨ ∃ x, a = some x ∧ room = roomUser x) := by
  unfold ownerRooms
  cases a with
  | none => simp
  | some x => simp

lemma admins_not_mem_ownerRooms (c : Id) (a : Option Id) :
    "admins" ∉ ownerRooms c a := by
  rw [mem_ownerRooms]
  rintro (h | ⟨x, -, h⟩)
  · exact admins_ne_roomUser c h
  · exact admins_ne_roomUser x h

lemma ownerRooms_card_self (c : Id) : (ownerRooms c (some c)).card = 1 := by
  unfold ownerRooms
  rw [Finset.insert_eq_self.mpr (Finset.mem_singleton_self _)]
  exact Finset.card_singleton _

/-- C8 counterexample: the delete fan-out does include the "admins"
channel — its second emit (the `notification` event) targets the admins
room, contradicting the claim that only create and edit do. -/
theorem c8_counterexample :
    (deleteDataEmits c8Ord).length = 2 ∧
    ((deleteDataEmits c8Ord).map (fun e => e.event)) = ["deleteOrder", "notification"] ∧
    ((deleteDataEmits c8Ord).map (fun e => decide ("admins" ∈ e.rooms))) =
      [false, true] := by
  refine ⟨rfl, rfl, ?_⟩
  decide

/-- C8 (amended): each operation performs one multi-target publish per
event over the deduplicated room set of `user:createdBy`, `user:assignedTo`
(when set) and — for create, edit, and delete's notification event —
"admins"; only delete's `deleteOrder` domain event omits the admins room;
a creator who is also the assignee occupies a single room, hence one
delivery. -/
theorem c8_fanout_channels :
    (∀ o : Order, (createOrderEmits o).length = 1 ∧ (editEntryEmits o).length = 1 ∧
      (deleteDataEmits o).length = 2)
    ∧ (∀ (o : Order) (e : Emit), (e ∈ createOrderEmits o ∨ e ∈ editEntryEmits o) →
        e.event = "notification" ∧
        (∀ room, room ∈ e.rooms ↔
          (room = roomUser o.createdBy
            ∨ (∃ a, o.assignedTo = some a ∧ room = roomUser a)
            ∨ room = "admins")))
    ∧ (∀ (o : Order) (e : Emit), e ∈ deleteDataEmits o → e.event = "deleteOrder" →
        (∀ room, room ∈ e.rooms ↔
          (room = roomUser o.createdBy ∨ ∃ a, o.assignedTo = some a ∧ room = roomUser a))
          ∧ "admins" ∉ e.rooms)
    ∧ (∀ (o : Order) (e : Emit), e ∈ deleteDataEmits o → e.event = "notification" →
        "admins" ∈ e.rooms)
    ∧ (∀ o : Order, o.assignedTo = some o.createdBy →
        (ownerRooms o.createdBy o.assignedTo).card = 1) := by
  refine ⟨?_, ?_, ?_, ?_, ?_⟩
  · intro o
    exact ⟨rfl, rfl, rfl⟩
  · intro o e he
    have he2 : e = ⟨"notification", insert "admins" (ownerRooms o.createdBy o.assignedTo)⟩ := by
      rcases he with he | he <;> simpa [createOrderEmits, editEntryEmits] using he
    subst he2
    refine ⟨rfl, fun room => ?_⟩
    simp only [Finset.mem_insert, mem_ownerRooms]
    constructor
    · rintro (h | h | h)
      · exact Or.inr (Or.inr h)
      · exact Or.inl h
      · exact Or.inr (Or.inl h)
    · rintro (h | h | h)
      · exact Or.inr (Or.inl h)
      · exact Or.inr (Or.inr h)
      · exact Or.inl h
  · intro o e he hev
    rcases (by simpa [deleteDataEmits] using he :
        e = ⟨"deleteOrder", ownerRooms o.createdBy o.assignedTo⟩
          ∨ e = ⟨"notification", insert "admins" (ownerRooms o.createdBy o.assignedTo)⟩)
      with he2 | he2
    · subst he2
      exact ⟨fun room => mem_ownerRooms o.createdBy o.assignedTo room,
        admins_not_mem_ownerRooms o.createdBy o.assignedTo⟩
    · subst he2
      simp at hev
  · intro o e he hev
    rcases (by simpa [deleteDataEmits] using he :
        e = ⟨"deleteOrder", ownerRooms o.createdBy o.assignedTo⟩
          ∨ e = ⟨"notification", insert "admins" (ownerRooms o.createdBy o.assignedTo)⟩)
      with he2 | he2
    · subst he2
      simp at hev
    · subst he2
      exact Finset.mem_insert_self _ _
  · intro o h
    rw [h]
    exact ownerRooms_card_self o.createdBy

/-- C8 witness: the creator-equals-assignee fixture occupies one room, and
the delete notification emit of the plain fixture reaches "admins". -/
theorem c8_witness :
    w8Ord.assignedTo = some w8Ord.createdBy ∧
    (ownerRooms w8Ord.createdBy w8Ord.assignedTo).card = 1 ∧
    "admins" ∈ (Emit.mk "notification"
      (insert "admins" (ownerRooms c8Ord.createdBy c8Ord.assignedTo))).rooms :=
  ⟨rfl, c8_fanout_channels.2.2.2.2 w8Ord rfl,
    c8_fanout_channels.2.2.2.1 c8Ord
      ⟨"notification", insert "admins" (ownerRooms c8Ord.createdBy c8Ord.assignedTo)⟩
      (List.Mem.tail _ (List.Mem.head _)) rfl⟩

lemma bulkGo_ok (uid : Id) (now : Time) :
    ∀ (rows : List Row) (acc orders : List Order),
      bulkGo uid now rows acc = BulkRes.ok orders →
      orders.length = rows.length + acc.length
        ∧ ∀ o ∈ orders, o ∈ acc ∨ ∃ r ∈ rows, o = rowToOrder uid r now := by
  intro rows
  induction rows with
  | nil =>
    intro acc orders h
    unfold bulkGo at h
    simp only [BulkRes.ok.injEq] at h
    subst h
    refine ⟨by simp, fun o ho => Or.inl (List.mem_reverse.mp ho)⟩
  | cons r rest ih =>
    intro acc orders h
    unfold bulkGo at h
    cases hc : rowCheck r with
    | some msg => rw [hc] at h; exact BulkRes.noConfusion h
    | none =>
      rw [hc] at h
      obtain ⟨hlen, hmem⟩ := ih (rowToOrder uid r now :: acc) orders h
      refine ⟨by simp at hlen ⊢; omega, fun o ho => ?_⟩
      rcases hmem o ho with hin | ⟨r2, hr2, rfl⟩
      · rcases List.mem_cons.mp hin with rfl | hin2
        · exact Or.inr ⟨r, List.mem_cons_self r rest, rfl⟩
        · exact Or.inl hin2
      · exact Or.inr ⟨r2, List.mem_cons_of_mem r hr2, rfl⟩

lemma bulkGo_error (uid : Id) (now : Time) :
    ∀ (rows : List Row) (acc : List Order),
      (∃ r ∈ rows, (rowCheck r).isSome = true) →
      ∃ r0 msg, bulkGo uid now rows acc = BulkRes.rowError r0 msg
        ∧ r0 ∈ rows ∧ rowCheck r0 = some msg := by
  intro rows
  induction rows with
  | nil =>
    rintro acc ⟨r, hr, -⟩
    exact absurd hr (List.not_mem_nil r)
  | cons r rest ih =>
    rintro acc ⟨r2, hr2, hs⟩
    cases hc : rowCheck r with
    | some msg =>
      exact ⟨r, msg, by unfold bulkGo; rw [hc], List.mem_cons_self r rest, hc⟩
    | none =>
      have hr2rest : r2 ∈ rest := by
        rcases List.mem_cons.mp hr2 with rfl | h
        · rw [hc] at hs; simp at hs
        · exact h
      obtain ⟨r0, msg, heq, hmem, hck⟩ :=
        ih (rowToOrder uid r now :: acc) ⟨r2, hr2rest, hs⟩
      exact ⟨r0, msg, by unfold bulkGo; rw [hc]; exact heq,
        List.mem_cons_of_mem r hmem, hck⟩

/-- C9 counterexample: a row whose single product has unit price 0 fails
the whole bulk batch with that row echoed, while the create operation
accepts the same product values — so the bulk validation is not the same
as the create validation. -/
theorem c9_counterexample :
    rowCheck c9Row = some "Invalid product data in row" ∧
    bulkUploadOrders "u1" [c9Row] 0 =
      BulkRes.rowError c9Row "Invalid product data in row" ∧
    (createOrder "u1" c9P 0).isOk = true ∧
    c9Row.unitPrice = some 0 ∧
    (c9P.products.map (fun q => q.unitPrice.num)) = [some 0] := by
  exact ⟨by decide, by decide, by decide, rfl, rfl⟩

/-- C9 (amended): bulk import maps each row to exactly one order with
exactly one product and any invalid row fails the entire batch — nothing
is persisted and the offending row is echoed in the error — but its
validation is similar to, not the same as, the create validation (it
rejects zero unit prices, does not reject negative unit prices, and skips
the orderType-conditional order-level checks). -/
theorem c9_bulk_import :
    (∀ (uid : Id) (rows : List Row) (now : Time) (orders : List Order),
        bulkUploadOrders uid rows now = BulkRes.ok orders →
        orders.length = rows.length ∧ ∀ o ∈ orders, o.products.length = 1)
    ∧ (∀ (uid : Id) (rows : List Row) (now : Time),
        (∃ r ∈ rows, (rowCheck r).isSome = true) →
        ∃ r0 msg, bulkUploadOrders uid rows now = BulkRes.rowError r0 msg
          ∧ r0 ∈ rows ∧ rowCheck r0 = some msg) := by
  constructor
  · intro uid rows now orders h
    obtain ⟨hlen, hmem⟩ := bulkGo_ok uid now rows [] orders h
    refine ⟨by simpa using hlen, fun o ho => ?_⟩
    rcases hmem o ho with hin | ⟨r, -, rfl⟩
    · exact absurd hin (List.not_mem_nil o)
    · rfl
  · intro uid rows now h
    exact bulkGo_error uid now rows [] h

/-- C9 witness: a valid single row imports as one order with one product;
a batch containing an invalid row fails with the row echoed. -/
theorem c9_witness :
    (bulkUploadOrders "u1" [w9Row] 0 = BulkRes.ok [rowToOrder "u1" w9Row 0] ∧
      [rowToOrder "u1" w9Row 0].length = [w9Row].length ∧
      (rowToOrder "u1" w9Row 0).products.length = 1) ∧
    ((rowCheck w9BadRow).isSome = true ∧
      (∃ r0 msg, bulkUploadOrders "u1" [w9Row, w9BadRow] 0 = BulkRes.rowError r0 msg
        ∧ r0 ∈ [w9Row, w9BadRow] ∧ rowCheck r0 = some msg)) := by
  have h1 := c9_bulk_import.1 "u1" [w9Row] 0 [rowToOrder "u1" w9Row 0] rfl
  exact ⟨⟨rfl, h1.1 ▸ rfl, h1.2 (rowToOrder "u1" w9Row 0) (List.Mem.head _)⟩,
    ⟨by decide, c9_bulk_import.2 "u1" [w9Row, w9BadRow] 0
      ⟨w9BadRow, List.Mem.tail _ (List.Mem.head _), by decide⟩⟩⟩

/-- C10: every authenticated caller of the notification listing receives
the same result — at most the 50 most recent `role: "All"` notifications
sorted newest first; the bulk mark-read marks every `role: "All"`
notification read regardless of its `userId`, and the bulk clear removes
exactly the `role: "All"` notifications. -/
theorem c10_notifications_global :
    (∀ (u1 u2 : ReqUser) (db : List NotificationRec), u1.id ≠ "" → u2.id ≠ "" →
        getNotifications (some u1) db = getNotifications (some u2) db)
    ∧ (∀ (u : ReqUser) (db l : List NotificationRec),
        getNotifications (some u) db = Res.ok l →
        l.length ≤ 50
          ∧ (∀ n ∈ l, n.role = "All" ∧ n ∈ db)
          ∧ l.Pairwise (fun a b => b.timestamp ≤ a.timestamp))
    ∧ (∀ (db : List NotificationRec) (n : NotificationRec), n ∈ db →
        (n.role = "All" → { n with isRead := true } ∈ markNotificationsRead db)
          ∧ (n.role ≠ "All" → n ∈ markNotificationsRead db))
    ∧ (∀ (db : List NotificationRec) (n : NotificationRec),
        n ∈ clearNotifications db ↔ n ∈ db ∧ n.role ≠ "All") := by
  refine ⟨?_, ?_, ?_, ?_⟩
  · intro u1 u2 db h1 h2
    simp only [getNotifications]
    rw [if_neg h1, if_neg h2]
  · intro u db l h
    simp only [getNotifications] at h
    split_ifs at h with hid
    simp only [Res.ok.injEq] at h
    subst h
    refine ⟨?_, ?_, ?_⟩
    · rw [List.length_take]
      exact min_le_left _ _
    · intro n hn
      have hs : n ∈ (db.filter (fun m => m.role == "All")).insertionSort newerFirst :=
        List.take_subset _ _ hn
      have hf : n ∈ db.filter (fun m => m.role == "All") :=
        (List.perm_insertionSort newerFirst _).mem_iff.mp hs
      obtain ⟨hmem, hrole⟩ := List.mem_filter.mp hf
      exact ⟨by simpa using hrole, hmem⟩
    · exact List.Pairwise.sublist (List.take_sublist _ _)
        (List.sorted_insertionSort newerFirst _)
  · intro db n hn
    constructor
    · intro hrole
      unfold markNotificationsRead
      exact List.mem_map.mpr ⟨n, hn, by rw [if_pos hrole]⟩
    · intro hrole
      unfold markNotificationsRead
      exact List.mem_map.mpr ⟨n, hn, by rw [if_neg hrole]⟩
  · intro db n
    simp [clearNotifications, List.mem_filter]

/-- C10 witness: on the three-notification fixture, a Sales caller and an
Admin caller receive the same listing, which contains only `role: "All"`
entries newest first; the mark-read and clear operations act on the
`role: "All"` entries regardless of `userId`. -/
theorem c10_witness :
    ((⟨"u1", "Sales"⟩ : ReqUser).id ≠ "" ∧ (⟨"u2", "Admin"⟩ : ReqUser).id ≠ "" ∧
      getNotifications (some ⟨"u1", "Sales"⟩) w10Db =
        getNotifications (some ⟨"u2", "Admin"⟩) w10Db) ∧
    (getNotifications (some ⟨"u1", "Sales"⟩) w10Db = Res.ok w10Out ∧
      w10Out.length ≤ 50 ∧ (∀ n ∈ w10Out, n.role = "All" ∧ n ∈ w10Db) ∧
      w10Out.Pairwise (fun a b => b.timestamp ≤ a.timestamp)) ∧
    (w10N0 ∈ w10Db ∧ w10N0.role = "All" ∧
      { w10N0 with isRead := true } ∈ markNotificationsRead w10Db) ∧
    (w10N0 ∈ clearNotifications w10Db ↔ w10N0 ∈ w10Db ∧ w10N0.role ≠ "All") := by
  have h2 := c10_notifications_global.2.1 ⟨"u1", "Sales"⟩ w10Db w10Out rfl
  exact ⟨⟨by decide, by decide,
      c10_notifications_global.1 ⟨"u1", "Sales"⟩ ⟨"u2", "Admin"⟩ w10Db (by decide)
        (by decide)⟩,
    ⟨rfl, h2⟩,
    ⟨by decide, rfl,
      (c10_notifications_global.2.2.1 w10Db w10N0 (by decide)).1 rfl⟩,
    c10_notifications_global.2.2.2 w10Db w10N0⟩

end SalesOrder
